import Mathlib

/-!
# Verification of `random_util.hpp` (SeedSource::Seq)

A shallow embedding of the seed-combination facility in `src/random_util.hpp`.
The C++ `SeedSource::Seq` struct is a SeedSequence-compliant type holding one
flags word; its `generate` method fills an output range from a configurable
combination of `std::random_device`, the system clock and the steady clock.

Modelling choices:
* machine words are `Nat` with explicit `% 2^32` where the C++ code truncates;
* the entropy source (`std::random_device` queried through a full-range 32-bit
  `std::uniform_int_distribution`) is a stream `rd : Nat → Nat` of raw query
  results, normalized by `% 2^32`;
* each chrono clock is an input count `Nat` (its `time_since_epoch().count()`
  value in nanoseconds);
* `generate` returns, besides the output words, the number of entropy-source
  queries and clock reads performed, so that access-counting claims are
  statable;
* the uninitialized `std::array<result_type,4>` scratch buffer is a
  `List (Option Nat)` starting all-`none`; reading an unwritten (`none`) cell
  models an uninitialized read, and `seedMaterial` returns `none` in that case;
* `std::seed_seq` (an external standard-library collaborator) is embedded as
  `seedSeqGenerate`, the exact integer-mixing algorithm of the C++ standard
  ([rand.util.seedseq]); a default-constructed `std::seed_seq` is the empty
  seed list.
-/

namespace SeedSource

/-- `Flags` word (C++ `std::uint_least32_t`). -/
abbrev Flags := Nat

/-- `kRandomDevice = 0x00000001`. -/
def kRandomDevice : Flags := 0x00000001

/-- `kSystemClock = 0x00000002`. -/
def kSystemClock : Flags := 0x00000002

/-- `kSteadyClock = 0x00000004`. -/
def kSteadyClock : Flags := 0x00000004

/-- `kAll = kRandomDevice | kSystemClock | kSteadyClock`. -/
def kAll : Flags := kRandomDevice ||| kSystemClock ||| kSteadyClock

/-- The 32-bit normalization performed by passing `std::random_device` output
through `std::uniform_int_distribution<result_type>{0, 0xffffffff}`. -/
def norm32 (v : Nat) : Nat := v % 2 ^ 32

/-- The scrambling function `T(x) = x xor (x >> 27)` of the `std::seed_seq`
generate algorithm. -/
def mixT (x : Nat) : Nat := x ^^^ (x >>> 27)

/-- The parameter `t` of the `std::seed_seq` generate algorithm. -/
def ssqT (n : Nat) : Nat :=
  if 623 ≤ n then 11 else if 68 ≤ n then 7 else if 39 ≤ n then 5
  else if 7 ≤ n then 3 else (n - 1) / 2

/-- The parameter `p = (n - t) / 2` of the `std::seed_seq` generate algorithm. -/
def ssqP (n : Nat) : Nat := (n - ssqT n) / 2

/-- The parameter `q = p + t` of the `std::seed_seq` generate algorithm. -/
def ssqQ (n : Nat) : Nat := ssqP n + ssqT n

/-- One iteration of the first loop (`k = 0, …, m-1`) of the `std::seed_seq`
generate algorithm, acting on the output buffer `b` of length `n`. -/
def ssqStep1 (seeds : List Nat) (n : Nat) (b : List Nat) (k : Nat) : List Nat :=
  let s := seeds.length
  let r1 := (1664525 * mixT (b.getD (k % n) 0 ^^^ b.getD ((k + ssqP n) % n) 0
              ^^^ b.getD ((k + n - 1) % n) 0)) % 2 ^ 32
  let r2 := (r1 + (if k = 0 then s
                   else if k ≤ s then (k % n) + seeds.getD (k - 1) 0
                   else k % n)) % 2 ^ 32
  let b := b.set ((k + ssqP n) % n) ((b.getD ((k + ssqP n) % n) 0 + r1) % 2 ^ 32)
  let b := b.set ((k + ssqQ n) % n) ((b.getD ((k + ssqQ n) % n) 0 + r2) % 2 ^ 32)
  b.set (k % n) r2

/-- One iteration of the second loop (`k = m, …, m+n-1`) of the `std::seed_seq`
generate algorithm. -/
def ssqStep2 (n : Nat) (b : List Nat) (k : Nat) : List Nat :=
  let r3 := (1566083941 * mixT ((b.getD (k % n) 0 + b.getD ((k + ssqP n) % n) 0
              + b.getD ((k + n - 1) % n) 0) % 2 ^ 32)) % 2 ^ 32
  let r4 := (r3 + 2 ^ 32 - k % n) % 2 ^ 32
  let b := b.set ((k + ssqP n) % n) (b.getD ((k + ssqP n) % n) 0 ^^^ r3)
  let b := b.set ((k + ssqQ n) % n) (b.getD ((k + ssqQ n) % n) 0 ^^^ r4)
  b.set (k % n) r4

/-- `std::seed_seq{seedsIn}.generate(out, out + n)`: the standard
integer-mixing seed sequence of [rand.util.seedseq].  A default-constructed
`std::seed_seq` is `seedSeqGenerate []`. -/
def seedSeqGenerate (seedsIn : List Nat) (n : Nat) : List Nat :=
  if n = 0 then []
  else
    let seeds := seedsIn.map (· % 2 ^ 32)
    let m := max (seeds.length + 1) n
    let buf := (List.range m).foldl (ssqStep1 seeds n) (List.replicate n 0x8b8b8b8b)
    (List.range n).foldl (fun b i => ssqStep2 n b (m + i)) buf

/-- The `extractTime` lambda of `Seq::generate`: writes a clock count as two
32-bit words — high half `cnt >> 32`, then low half `(result_type)cnt` — at
the current array position, advancing the position by 2. -/
def extractTime (cnt : Nat) (st : List (Option Nat) × Nat) : List (Option Nat) × Nat :=
  let arr := st.1.set st.2 (some ((cnt >>> 32) % 2 ^ 32))
  let arr := arr.set (st.2 + 1) (some (cnt % 2 ^ 32))
  (arr, st.2 + 2)

/-- The scratch-buffer phase of the clock branch of `Seq::generate`: an
uninitialized `std::array<result_type,4>` (all cells `none`) filled by
`extractTime` for each selected clock, system clock first. -/
def clockScratch (f : Flags) (sysCnt steadyCnt : Nat) : List (Option Nat) × Nat :=
  let st0 : List (Option Nat) × Nat := (List.replicate 4 none, 0)
  let st1 := if f &&& kSystemClock ≠ 0 then extractTime sysCnt st0 else st0
  if f &&& kSteadyClock ≠ 0 then extractTime steadyCnt st1 else st1

/-- Reading the scratch cells `[0, pos)` that are handed to the
`std::seed_seq` constructor; `none` when any cell read is unwritten
(an uninitialized read in the C++ code). -/
def seedMaterial (arr : List (Option Nat)) (pos : Nat) : Option (List Nat) :=
  (List.range pos).mapM fun i => arr.getD i none

/-- The XOR pass of `randDevGen` with callback `*it ^= v`: walks the existing
output words, drawing one fresh normalized entropy value per word (queries
numbered from `k`) and folding it in by bitwise-XOR. -/
def xorPass (rd : Nat → Nat) (k : Nat) : List Nat → List Nat
  | [] => []
  | w :: ws => (w ^^^ norm32 (rd k)) :: xorPass rd (k + 1) ws

/-- The observable outcome of one `Seq::generate` call: the words written to
the output range, and how many entropy-source queries and clock reads were
performed. -/
structure GenResult where
  out : List Nat
  rdQueries : Nat
  sysReads : Nat
  steadyReads : Nat
deriving DecidableEq, Repr

/-- `Seq::generate` over an output range of length `n`, with entropy stream
`rd` and clock counts `sysCnt`, `steadyCnt`.  Follows the C++ control flow:
`f = flags & kAll`; if `f == kRandomDevice` fill directly from the entropy
source; otherwise fill the scratch array from the selected clocks, generate
through a `std::seed_seq` (default-constructed when no clock was selected),
then XOR in entropy-source output if `kRandomDevice` is also selected. -/
def generate (flags : Flags) (rd : Nat → Nat) (sysCnt steadyCnt : Nat)
    (n : Nat) : GenResult :=
  let f := flags &&& kAll
  if f = kRandomDevice then
    { out := (List.range n).map fun i => norm32 (rd i)
      rdQueries := n, sysReads := 0, steadyReads := 0 }
  else
    let sc := clockScratch f sysCnt steadyCnt
    let base :=
      if sc.2 = 0 then seedSeqGenerate [] n
      else
        match seedMaterial sc.1 sc.2 with
        | some seeds => seedSeqGenerate seeds n
        | none => []
    { out := if f &&& kRandomDevice ≠ 0 then xorPass rd 0 base else base
      rdQueries := if f &&& kRandomDevice ≠ 0 then n else 0
      sysReads := if f &&& kSystemClock ≠ 0 then 1 else 0
      steadyReads := if f &&& kSteadyClock ≠ 0 then 1 else 0 }

/-- The `SeedSource::Seq` struct: its only state variable is the flags word. -/
structure Seq where
  flags : Flags
deriving DecidableEq, Repr

/-- The primary constructor `Seq(Flags flags = kAll)`: stores the flags word
verbatim. -/
def mkSeq (flags : Flags := kAll) : Seq := ⟨flags⟩

/-- The iterator-pair / initializer-list constructors: start from
`0x00000000` and bitwise-OR every element in order. -/
def seqOfList (l : List Flags) : Seq := ⟨l.foldl (· ||| ·) 0x00000000⟩

/-- `Seq::size()`: returns 1. -/
def Seq.size (_ : Seq) : Nat := 1

/-- `Seq::param(it)`: the value written through the output iterator, namely
the stored flags word. -/
def Seq.param (s : Seq) : Flags := s.flags

/-- `Seq::generate` as a method. -/
def Seq.generate (s : Seq) (rd : Nat → Nat) (sysCnt steadyCnt n : Nat) : GenResult :=
  SeedSource.generate s.flags rd sysCnt steadyCnt n

/-- The clean description of the scratch words: for each selected clock the
64-bit count split as high half then low half, system clock first. -/
def clockWords (f : Flags) (sysCnt steadyCnt : Nat) : List Nat :=
  (if f &&& kSystemClock ≠ 0 then [(sysCnt >>> 32) % 2 ^ 32, sysCnt % 2 ^ 32] else [])
  ++ (if f &&& kSteadyClock ≠ 0 then [(steadyCnt >>> 32) % 2 ^ 32, steadyCnt % 2 ^ 32] else [])

end SeedSource

namespace SeedSource

lemma and_kAll_right (m c : Nat) (hc : kAll &&& c = c) : (m &&& kAll) &&& c = m &&& c := by
  rw [Nat.and_assoc, hc]

lemma foldl_length_eq (g : List Nat → Nat → List Nat)
    (h : ∀ b k, (g b k).length = b.length) :
    ∀ (l : List Nat) (b : List Nat), (l.foldl g b).length = b.length := by
  intro l
  induction l with
  | nil => intro b; rfl
  | cons x xs ih => intro b; rw [List.foldl_cons, ih, h]

lemma ssqStep1_length (seeds : List Nat) (n : Nat) (b : List Nat) (k : Nat) :
    (ssqStep1 seeds n b k).length = b.length := by
  simp [ssqStep1]

lemma ssqStep2_length (n : Nat) (b : List Nat) (k : Nat) :
    (ssqStep2 n b k).length = b.length := by
  simp [ssqStep2]

lemma seedSeqGenerate_length (seeds : List Nat) (n : Nat) :
    (seedSeqGenerate seeds n).length = n := by
  unfold seedSeqGenerate
  by_cases h : n = 0
  · simp [h]
  · rw [if_neg h]
    rw [foldl_length_eq _ (fun b k => ssqStep2_length n b _),
        foldl_length_eq _ (fun b k => ssqStep1_length _ n b k),
        List.length_replicate]

lemma xorPass_length (rd : Nat → Nat) :
    ∀ (l : List Nat) (k : Nat), (xorPass rd k l).length = l.length := by
  intro l
  induction l with
  | nil => intro k; rfl
  | cons w ws ih => intro k; simp [xorPass, ih]

lemma xorPass_getD (rd : Nat → Nat) :
    ∀ (l : List Nat) (k i : Nat), i < l.length →
      (xorPass rd k l).getD i 0 = l.getD i 0 ^^^ norm32 (rd (k + i)) := by
  intro l
  induction l with
  | nil => intro k i h; simp at h
  | cons w ws ih =>
      intro k i h
      cases i with
      | zero => simp [xorPass]
      | succ j =>
          have hj : j < ws.length := by simpa using h
          simp only [xorPass, List.getD_cons_succ]
          rw [ih (k + 1) j hj]
          have hk : k + 1 + j = k + (j + 1) := by omega
          rw [hk]

lemma clockScratch_spec (f : Flags) (sysCnt steadyCnt : Nat) :
    seedMaterial (clockScratch f sysCnt steadyCnt).1 (clockScratch f sysCnt steadyCnt).2
      = some (clockWords f sysCnt steadyCnt)
    ∧ (clockScratch f sysCnt steadyCnt).2 = (clockWords f sysCnt steadyCnt).length := by
  unfold clockScratch clockWords
  split_ifs <;> exact ⟨rfl, rfl⟩

end SeedSource

namespace SeedSource

lemma xor_left_cancel {a b c : Nat} (h : a ^^^ b = a ^^^ c) : b = c := by
  have h2 := congrArg (fun x => a ^^^ x) h
  simpa [← Nat.xor_assoc] using h2

lemma generate_else (flags : Flags) (rd : Nat → Nat) (sysCnt steadyCnt n : Nat)
    (h : flags &&& kAll ≠ kRandomDevice) :
    generate flags rd sysCnt steadyCnt n =
      { out := if flags &&& kRandomDevice ≠ 0
               then xorPass rd 0 (seedSeqGenerate (clockWords (flags &&& kAll) sysCnt steadyCnt) n)
               else seedSeqGenerate (clockWords (flags &&& kAll) sysCnt steadyCnt) n
        rdQueries := if flags &&& kRandomDevice ≠ 0 then n else 0
        sysReads := if flags &&& kSystemClock ≠ 0 then 1 else 0
        steadyReads := if flags &&& kSteadyClock ≠ 0 then 1 else 0 } := by
  have hrd : (flags &&& kAll) &&& kRandomDevice = flags &&& kRandomDevice :=
    and_kAll_right flags kRandomDevice (by decide)
  have hsys : (flags &&& kAll) &&& kSystemClock = flags &&& kSystemClock :=
    and_kAll_right flags kSystemClock (by decide)
  have hstd : (flags &&& kAll) &&& kSteadyClock = flags &&& kSteadyClock :=
    and_kAll_right flags kSteadyClock (by decide)
  obtain ⟨hsm, hlen⟩ := clockScratch_spec (flags &&& kAll) sysCnt steadyCnt
  simp only [generate, if_neg h, hrd, hsys, hstd]
  by_cases hp : (clockScratch (flags &&& kAll) sysCnt steadyCnt).2 = 0
  · have hw : clockWords (flags &&& kAll) sysCnt steadyCnt = [] :=
      List.length_eq_zero.mp (by rw [← hlen, hp])
    rw [if_pos hp, hw]
  · rw [if_neg hp, hsm]

end SeedSource

namespace SeedSource

/-- Claim C1: for every mask whose restriction to the three defined bits is
`kRandomDevice` alone, `generate` over a length-`n` range performs exactly `n`
entropy-source queries, reads no clock, and writes each query's value,
normalized to 32 bits, directly and unmodified into the corresponding output
position with no mixing step. -/
theorem generate_randomDevice_only (flags : Flags) (rd : Nat → Nat)
    (sysCnt steadyCnt n : Nat) (h : flags &&& kAll = kRandomDevice) :
    generate flags rd sysCnt steadyCnt n =
      { out := (List.range n).map fun i => rd i % 2 ^ 32
        rdQueries := n, sysReads := 0, steadyReads := 0 } := by
  simp only [generate, h, if_pos, norm32]

/-- Witness for C1 at the concrete mask `9` (bit 3 undefined, defined bits =
`kRandomDevice`), stream `rd i = 2^32 + i` and `n = 3`. -/
theorem generate_randomDevice_only_witness :
    (9 : Flags) &&& kAll = kRandomDevice ∧
    generate 9 (fun i => 2 ^ 32 + i) 0 0 3 =
      { out := (List.range 3).map fun i => (2 ^ 32 + i) % 2 ^ 32
        rdQueries := 3, sysReads := 0, steadyReads := 0 } :=
  ⟨by decide, generate_randomDevice_only 9 (fun i => 2 ^ 32 + i) 0 0 3 (by decide)⟩

end SeedSource

namespace SeedSource

/-- Claim C2: for every mask selecting the entropy source together with at least one
clock flag, `generate` produces the clock-mixed words first and then XORs one
fresh normalized 32-bit entropy value into each of the `n` words (performing
`n` entropy queries); every output word equals the clock-derived word XOR the
entropy word, and flipping only the entropy values (clock counts held fixed)
changes every output word. -/
theorem generate_xor_pass (flags : Flags) (rd rd' : Nat → Nat)
    (sysCnt steadyCnt n : Nat)
    (hrd : flags &&& kRandomDevice ≠ 0)
    (hclk : flags &&& (kSystemClock ||| kSteadyClock) ≠ 0)
    (hflip : ∀ i, i < n → rd' i % 2 ^ 32 ≠ rd i % 2 ^ 32) :
    (generate flags rd sysCnt steadyCnt n).out
        = xorPass rd 0 (seedSeqGenerate (clockWords (flags &&& kAll) sysCnt steadyCnt) n)
    ∧ (generate flags rd sysCnt steadyCnt n).rdQueries = n
    ∧ (∀ i, i < n →
        (generate flags rd sysCnt steadyCnt n).out.getD i 0
          = (seedSeqGenerate (clockWords (flags &&& kAll) sysCnt steadyCnt) n).getD i 0
              ^^^ (rd i % 2 ^ 32))
    ∧ (∀ i, i < n →
        (generate flags rd' sysCnt steadyCnt n).out.getD i 0
          ≠ (generate flags rd sysCnt steadyCnt n).out.getD i 0) := by
  have hne : flags &&& kAll ≠ kRandomDevice := by
    intro he
    apply hclk
    have hc := and_kAll_right flags (kSystemClock ||| kSteadyClock) (by decide)
    rw [← hc, he]
    decide
  have hbase : (seedSeqGenerate (clockWords (flags &&& kAll) sysCnt steadyCnt) n).length = n :=
    seedSeqGenerate_length _ n
  have hout : (generate flags rd sysCnt steadyCnt n).out
      = xorPass rd 0 (seedSeqGenerate (clockWords (flags &&& kAll) sysCnt steadyCnt) n) := by
    rw [generate_else flags rd sysCnt steadyCnt n hne]
    exact if_pos hrd
  have hout' : (generate flags rd' sysCnt steadyCnt n).out
      = xorPass rd' 0 (seedSeqGenerate (clockWords (flags &&& kAll) sysCnt steadyCnt) n) := by
    rw [generate_else flags rd' sysCnt steadyCnt n hne]
    exact if_pos hrd
  have hget : ∀ i, i < n →
      (generate flags rd sysCnt steadyCnt n).out.getD i 0
        = (seedSeqGenerate (clockWords (flags &&& kAll) sysCnt steadyCnt) n).getD i 0
            ^^^ (rd i % 2 ^ 32) := by
    intro i hi
    rw [hout, xorPass_getD rd _ 0 i (by rw [hbase]; exact hi), Nat.zero_add]
    rfl
  have hget' : ∀ i, i < n →
      (generate flags rd' sysCnt steadyCnt n).out.getD i 0
        = (seedSeqGenerate (clockWords (flags &&& kAll) sysCnt steadyCnt) n).getD i 0
            ^^^ (rd' i % 2 ^ 32) := by
    intro i hi
    rw [hout', xorPass_getD rd' _ 0 i (by rw [hbase]; exact hi), Nat.zero_add]
    rfl
  refine ⟨hout, ?_, hget, ?_⟩
  · rw [generate_else flags rd sysCnt steadyCnt n hne]
    exact if_pos hrd
  · intro i hi hcontra
    rw [hget i hi, hget' i hi] at hcontra
    exact hflip i hi (xor_left_cancel hcontra)

/-- Witness for C2 at the concrete mask `3` (`kRandomDevice | kSystemClock`),
clock counts `2^32 + 5` and `7`, `n = 2`, streams `rd i = i` and
`rd' i = i + 1`. -/
theorem generate_xor_pass_witness :
    ((3 : Flags) &&& kRandomDevice ≠ 0
      ∧ (3 : Flags) &&& (kSystemClock ||| kSteadyClock) ≠ 0
      ∧ ∀ i, i < 2 → (i + 1) % 2 ^ 32 ≠ i % 2 ^ 32)
    ∧ ((generate 3 (fun i => i) (2 ^ 32 + 5) 7 2).out
        = xorPass (fun i => i) 0 (seedSeqGenerate (clockWords (3 &&& kAll) (2 ^ 32 + 5) 7) 2)
      ∧ (generate 3 (fun i => i) (2 ^ 32 + 5) 7 2).rdQueries = 2
      ∧ (∀ i, i < 2 →
          (generate 3 (fun i => i) (2 ^ 32 + 5) 7 2).out.getD i 0
            = (seedSeqGenerate (clockWords (3 &&& kAll) (2 ^ 32 + 5) 7) 2).getD i 0
                ^^^ (i % 2 ^ 32))
      ∧ (∀ i, i < 2 →
          (generate 3 (fun i => i + 1) (2 ^ 32 + 5) 7 2).out.getD i 0
            ≠ (generate 3 (fun i => i) (2 ^ 32 + 5) 7 2).out.getD i 0)) :=
  ⟨⟨by decide, by decide, by decide⟩,
    generate_xor_pass 3 (fun i => i) (fun i => i + 1) (2 ^ 32 + 5) 7 2
      (by decide) (by decide) (by decide)⟩

end SeedSource

namespace SeedSource

/-- Claim C3: in the clock branch, each selected clock's 64-bit nanosecond count is
split into two 32-bit words (high half then low half), appended system clock
first then steady clock, giving a scratch list of exactly 0, 2 or 4 words;
that list is fed as the seeding input to the standard integer-mixing seed
sequence, which fills all `n` output words (possibly XOR-hardened afterwards
when the entropy source is also selected). -/
theorem generate_clock_branch (flags : Flags) (rd : Nat → Nat)
    (sysCnt steadyCnt n : Nat) (h : flags &&& kAll ≠ kRandomDevice) :
    ((clockWords (flags &&& kAll) sysCnt steadyCnt).length = 0
      ∨ (clockWords (flags &&& kAll) sysCnt steadyCnt).length = 2
      ∨ (clockWords (flags &&& kAll) sysCnt steadyCnt).length = 4)
    ∧ clockWords (flags &&& kAll) sysCnt steadyCnt
        = (if flags &&& kSystemClock ≠ 0
           then [(sysCnt >>> 32) % 2 ^ 32, sysCnt % 2 ^ 32] else [])
          ++ (if flags &&& kSteadyClock ≠ 0
              then [(steadyCnt >>> 32) % 2 ^ 32, steadyCnt % 2 ^ 32] else [])
    ∧ (generate flags rd sysCnt steadyCnt n).out
        = (if flags &&& kRandomDevice ≠ 0
           then xorPass rd 0 (seedSeqGenerate (clockWords (flags &&& kAll) sysCnt steadyCnt) n)
           else seedSeqGenerate (clockWords (flags &&& kAll) sysCnt steadyCnt) n)
    ∧ (generate flags rd sysCnt steadyCnt n).out.length = n := by
  have hsys : (flags &&& kAll) &&& kSystemClock = flags &&& kSystemClock :=
    and_kAll_right flags kSystemClock (by decide)
  have hstd : (flags &&& kAll) &&& kSteadyClock = flags &&& kSteadyClock :=
    and_kAll_right flags kSteadyClock (by decide)
  refine ⟨?_, ?_, ?_, ?_⟩
  · by_cases h2 : flags &&& kSystemClock ≠ 0 <;> by_cases h4 : flags &&& kSteadyClock ≠ 0 <;>
      simp [clockWords, hsys, hstd, h2, h4]
  · simp only [clockWords, hsys, hstd]
  · rw [generate_else flags rd sysCnt steadyCnt n h]
  · rw [generate_else flags rd sysCnt steadyCnt n h]
    by_cases hr : flags &&& kRandomDevice ≠ 0
    · simp only [if_pos hr, xorPass_length, seedSeqGenerate_length]
    · simp only [if_neg hr, seedSeqGenerate_length]

/-- Witness for C3 at the concrete mask `6` (both clocks, no entropy source),
counts `2^32 + 5` and `7`, `n = 2`. -/
theorem generate_clock_branch_witness :
    ((6 : Flags) &&& kAll ≠ kRandomDevice)
    ∧ (((clockWords (6 &&& kAll) (2 ^ 32 + 5) 7).length = 0
        ∨ (clockWords (6 &&& kAll) (2 ^ 32 + 5) 7).length = 2
        ∨ (clockWords (6 &&& kAll) (2 ^ 32 + 5) 7).length = 4)
      ∧ clockWords (6 &&& kAll) (2 ^ 32 + 5) 7
          = (if (6 : Flags) &&& kSystemClock ≠ 0
             then [((2 ^ 32 + 5) >>> 32) % 2 ^ 32, (2 ^ 32 + 5) % 2 ^ 32] else [])
            ++ (if (6 : Flags) &&& kSteadyClock ≠ 0
                then [((7 : Nat) >>> 32) % 2 ^ 32, 7 % 2 ^ 32] else [])
      ∧ (generate 6 (fun i => i) (2 ^ 32 + 5) 7 2).out
          = (if (6 : Flags) &&& kRandomDevice ≠ 0
             then xorPass (fun i => i) 0 (seedSeqGenerate (clockWords (6 &&& kAll) (2 ^ 32 + 5) 7) 2)
             else seedSeqGenerate (clockWords (6 &&& kAll) (2 ^ 32 + 5) 7) 2)
      ∧ (generate 6 (fun i => i) (2 ^ 32 + 5) 7 2).out.length = 2) :=
  ⟨by decide, generate_clock_branch 6 (fun i => i) (2 ^ 32 + 5) 7 2 (by decide)⟩

/-- Claim C4 counterexample: at mask `kSystemClock` and `n = 0`, `generate` still
reads the system clock once, so the claim that an empty range involves no
clock access is false. -/
theorem generate_empty_reads_clock :
    (generate kSystemClock (fun _ => 0) 0 0 0).sysReads ≠ 0 := by decide

/-- Claim C4 (amended): for every mask, `generate` over an empty range writes
nothing and performs no entropy-source query; selected clocks, however, are
still read. -/
theorem generate_empty_range (flags : Flags) (rd : Nat → Nat)
    (sysCnt steadyCnt : Nat) :
    (generate flags rd sysCnt steadyCnt 0).out = []
    ∧ (generate flags rd sysCnt steadyCnt 0).rdQueries = 0 := by
  by_cases h : flags &&& kAll = kRandomDevice
  · simp [generate, h]
  · rw [generate_else flags rd sysCnt steadyCnt 0 h]
    constructor
    · by_cases hr : flags &&& kRandomDevice ≠ 0
      · simp only [if_pos hr, seedSeqGenerate, if_pos rfl]
        rfl
      · simp only [if_neg hr, seedSeqGenerate, if_pos rfl]
        simp
    · by_cases hr : flags &&& kRandomDevice ≠ 0
      · simp only [if_pos hr]
      · simp only [if_neg hr]

/-- Claim C5: for a mask with no recognized source bits, `generate` is fully
deterministic: it ignores the entropy stream and both clock counts, performs
no entropy query and no clock read, and outputs the mixing function's fixed
default no-input sequence. -/
theorem generate_zero_mask (flags : Flags) (rd rd' : Nat → Nat)
    (sysCnt steadyCnt sysCnt' steadyCnt' n : Nat) (h : flags &&& kAll = 0) :
    generate flags rd sysCnt steadyCnt n
      = { out := seedSeqGenerate [] n, rdQueries := 0, sysReads := 0, steadyReads := 0 }
    ∧ generate flags rd sysCnt steadyCnt n = generate flags rd' sysCnt' steadyCnt' n := by
  have hne : flags &&& kAll ≠ kRandomDevice := by rw [h]; decide
  have hrd : flags &&& kRandomDevice = 0 := by
    rw [← and_kAll_right flags kRandomDevice (by decide), h]
    decide
  have hsys : flags &&& kSystemClock = 0 := by
    rw [← and_kAll_right flags kSystemClock (by decide), h]
    decide
  have hstd : flags &&& kSteadyClock = 0 := by
    rw [← and_kAll_right flags kSteadyClock (by decide), h]
    decide
  have hcw : ∀ a b : Nat, clockWords (flags &&& kAll) a b = [] := by
    intro a b
    rw [h]
    rfl
  constructor
  · rw [generate_else flags rd sysCnt steadyCnt n hne]
    simp [hrd, hsys, hstd, hcw]
  · rw [generate_else flags rd sysCnt steadyCnt n hne,
        generate_else flags rd' sysCnt' steadyCnt' n hne]
    simp [hrd, hcw]

/-- Witness for C5 at the concrete mask `2^20` (an unrecognized high bit
only), two different entropy streams and clock counts, `n = 2`. -/
theorem generate_zero_mask_witness :
    ((1048576 : Flags) &&& kAll = 0)
    ∧ (generate 1048576 (fun i => i) 3 4 2
        = { out := seedSeqGenerate [] 2, rdQueries := 0, sysReads := 0, steadyReads := 0 }
      ∧ generate 1048576 (fun i => i) 3 4 2 = generate 1048576 (fun i => i + 1) 5 6 2) :=
  ⟨by decide, generate_zero_mask 1048576 (fun i => i) (fun i => i + 1) 3 4 5 6 2 (by decide)⟩

end SeedSource

namespace SeedSource

/-- Claim C6: the collection constructor stores the bitwise-OR of all elements, so
it is observably identical to the primary constructor applied to the pre-OR'd
mask; in particular `Seq{kSystemClock, kSteadyClock}` behaves exactly like
`Seq(kSystemClock | kSteadyClock)`, including under `generate`. -/
theorem seqOfList_eq_or_mask :
    (∀ l : List Flags, seqOfList l = mkSeq (l.foldl (· ||| ·) 0))
    ∧ seqOfList [kSystemClock, kSteadyClock] = mkSeq (kSystemClock ||| kSteadyClock)
    ∧ ∀ (rd : Nat → Nat) (sysCnt steadyCnt n : Nat),
        Seq.generate (seqOfList [kSystemClock, kSteadyClock]) rd sysCnt steadyCnt n
          = Seq.generate (mkSeq (kSystemClock ||| kSteadyClock)) rd sysCnt steadyCnt n := by
  refine ⟨fun l => rfl, by decide, fun rd sysCnt steadyCnt n => ?_⟩
  have h : seqOfList [kSystemClock, kSteadyClock] = mkSeq (kSystemClock ||| kSteadyClock) := by
    decide
  rw [h]

/-- Claim C7: `size()` returns 1 for every stored mask, and `param` writes back
exactly the mask passed at construction, verbatim. -/
theorem size_one_param_verbatim (m : Flags) :
    (mkSeq m).size = 1 ∧ (mkSeq m).param = m ∧ ∀ s : Seq, s.size = 1 :=
  ⟨rfl, rfl, fun _ => rfl⟩

/-- Claim C8: generation ignores mask bits outside the three defined flag bits:
`generate` on a combiner built from `m` produces exactly the same result as on
one built from `m &&& kAll`, for the same entropy stream and clock counts. -/
theorem generate_ignores_undefined_bits (m : Flags) (rd : Nat → Nat)
    (sysCnt steadyCnt n : Nat) :
    Seq.generate (mkSeq m) rd sysCnt steadyCnt n
      = Seq.generate (mkSeq (m &&& kAll)) rd sysCnt steadyCnt n := by
  have hm : (m &&& kAll) &&& kAll = m &&& kAll := and_kAll_right m kAll (by decide)
  simp only [Seq.generate, mkSeq, generate, hm]

/-- Claim C9: constructing from an empty collection stores mask 0 — the degenerate
zero-source configuration, not the `kAll` default of the primary
constructor — and `generate` on it produces the fixed fallback sequence. -/
theorem seqOfList_empty_degenerate :
    (seqOfList []).flags = 0
    ∧ (mkSeq : Seq).flags = kAll
    ∧ (seqOfList []).flags ≠ (mkSeq : Seq).flags
    ∧ ∀ (rd : Nat → Nat) (sysCnt steadyCnt n : Nat),
        (Seq.generate (seqOfList []) rd sysCnt steadyCnt n).out = seedSeqGenerate [] n := by
  refine ⟨rfl, rfl, by decide, fun rd sysCnt steadyCnt n => ?_⟩
  have hne : (0 : Flags) &&& kAll ≠ kRandomDevice := by decide
  show (generate 0 rd sysCnt steadyCnt n).out = seedSeqGenerate [] n
  rw [generate_else 0 rd sysCnt steadyCnt n hne]
  have hcw : clockWords (0 &&& kAll) sysCnt steadyCnt = [] := rfl
  rw [hcw]
  simp

/-- Claim C10: the seed material handed to the mixing sequence is exactly the
written prefix of the 4-word scratch buffer — two words per selected clock —
so no unwritten (uninitialized) cell is ever read; the prefix is empty
exactly when no clock flag is selected, in which case the default no-input
mixing sequence is used. -/
theorem clockScratch_reads_written_prefix (f : Flags) (sysCnt steadyCnt : Nat) :
    (seedMaterial (clockScratch f sysCnt steadyCnt).1
        (clockScratch f sysCnt steadyCnt).2).isSome = true
    ∧ seedMaterial (clockScratch f sysCnt steadyCnt).1 (clockScratch f sysCnt steadyCnt).2
        = some (clockWords f sysCnt steadyCnt)
    ∧ (clockScratch f sysCnt steadyCnt).2
        = 2 * ((if f &&& kSystemClock ≠ 0 then 1 else 0)
                + (if f &&& kSteadyClock ≠ 0 then 1 else 0))
    ∧ ((clockScratch f sysCnt steadyCnt).2 = 0
        ↔ (f &&& kSystemClock = 0 ∧ f &&& kSteadyClock = 0)) := by
  obtain ⟨hsm, hlen⟩ := clockScratch_spec f sysCnt steadyCnt
  refine ⟨by rw [hsm]; rfl, hsm, ?_, ?_⟩
  · by_cases h2 : f &&& kSystemClock ≠ 0 <;> by_cases h4 : f &&& kSteadyClock ≠ 0 <;>
      rw [hlen] <;> simp [clockWords, h2, h4]
  · by_cases h2 : f &&& kSystemClock ≠ 0 <;> by_cases h4 : f &&& kSteadyClock ≠ 0 <;>
      rw [hlen] <;>
      simp only [clockWords, h2, h4, ite_true, ite_false, not_not, ne_eq,
        List.append_nil, List.nil_append, List.length_nil, List.length_cons,
        List.length_append] <;>
      constructor <;> first | omega | (intro hc; omega) | tauto

end SeedSource
